import Mathlib

/-!
Verification development for the fixflow deploy orchestrator backend
(src/backend/app.py, src/backend/thread_manager.py,
src/backend/routes/db_routes.py).

The module-level dictionary `deployments` of app.py is modelled as an
insertion-ordered association list from deployment id to record, matching
Python dict semantics (assignment to a fresh key appends, assignment to an
existing key updates in place).  Snapshot persistence is modelled by
counting executions of `save_deployment_history` and, for the round-trip
property, by an explicit JSON serialization of the store.
-/

namespace FixFlow

/-- Value held in the `timestamp` field of a deployment record.  The
source writes `time.time()` (a number) at creation (app.py:352) but
`get_deployment_history` later overwrites the field with a formatted
string (app.py:850), so the field can hold either. -/
inductive TsVal where
  | num (n : Int)
  | str (s : String)
deriving DecidableEq, Repr

/-- One entry of the `deployments` dictionary (app.py:341-354 and the
analogous dict literals for the other job kinds).  `dtype` is the dict
key `"type"`; `vms` the target list; every remaining caller-supplied
string field (ft, file, user, target_path, ...) lives in `metadata`. -/
structure Deployment where
  id : String
  dtype : String
  status : String
  timestamp : TsVal
  logs : List String
  vms : List String
  metadata : List (String × String)
deriving DecidableEq, Repr

/-- The `deployments` dictionary: insertion-ordered map id -> record. -/
abbrev Store := List (String × Deployment)

/-- Python exceptions that cross a function boundary in the model. -/
inductive PyErr where
  | keyError (k : String)
  | attributeError (m : String)
  | exc (m : String)
deriving DecidableEq, Repr

/-- Dict membership test plus lookup (`deployment_id in deployments`,
`deployments[deployment_id]`). -/
def store_lookup : Store → String → Option Deployment
  | [], _ => none
  | (k, d) :: rest, i => if k = i then some d else store_lookup rest i

/-- Dict assignment `deployments[i] = d`: update in place when the key
exists, append otherwise. -/
def store_set : Store → String → Deployment → Store
  | [], i, d => [(i, d)]
  | (k, e) :: rest, i, d =>
    if k = i then (k, d) :: rest else (k, e) :: store_set rest i d

/-- In-place mutation of the record under key `i` (no-op when absent;
the call sites below only use it for keys they have already looked up). -/
def store_update : Store → String → (Deployment → Deployment) → Store
  | [], _, _ => []
  | (k, d) :: rest, i, f =>
    (if k = i then (k, f d) else (k, d)) :: store_update rest i f

/-- Module state relevant to the claims: the `deployments` dictionary
plus the number of snapshot persists performed so far (executions of
`save_deployment_history`). -/
structure AppState where
  store : Store
  saves : Nat
deriving DecidableEq, Repr

/-- Embeds `save_deployment_history` (app.py:134-163).  Its effect on
the in-memory state is nil; it writes the JSON serialization of the
store to the canonical snapshot file, modelled here by the persist
counter (the file content itself is `encode_store store`, see the
round-trip development below).  Backup rotation touches only files. -/
def save_deployment_history (a : AppState) : AppState :=
  { a with saves := a.saves + 1 }

/-- Embeds `log_message` (app.py:166-175): append the line to the
record's log list when the id is a key of `deployments`, otherwise do
nothing.  The `"logs" not in ...` guard of app.py:170 is vacuous here
because the modelled record always carries its log list.  The function
performs no snapshot persist. -/
def log_message (a : AppState) (deployment_id message : String) : AppState :=
  match store_lookup a.store deployment_id with
  | some _ =>
      let st := store_update a.store deployment_id
        (fun d => { d with logs := d.logs ++ [message] })
      { a with store := st }
  | none => a

/-- Request body of `POST /api/deploy/file` (app.py:321-329).  Absent
JSON keys are `none`; Python truthiness makes the empty string and the
empty list count as missing in the `all([...])` check of app.py:333. -/
structure FileDeployRequest where
  ft : Option String
  file : Option String
  user : Option String
  targetPath : Option String
  vms : Option (List String)
  sudo_flag : Bool
  createBackup : Bool
deriving DecidableEq, Repr

/-- Python truthiness of an optional string. -/
def truthy_str : Option String → Bool
  | none => false
  | some s => !s.isEmpty

/-- Python truthiness of an optional list. -/
def truthy_list : Option (List String) → Bool
  | none => false
  | some l => !l.isEmpty

/-- Responses of the submission route. -/
inductive DeployResp where
  | badRequest
  | accepted (deploymentId : String)
deriving DecidableEq, Repr

/-- Python `str(bool)` for the sudo / create_backup metadata fields. -/
def py_bool_str (b : Bool) : String := if b then "True" else "False"

/-- Embeds the route `deploy_file` (app.py:321-363).  `new_id` stands
for the generated `uuid.uuid4()` and `now` for `time.time()`.  On
missing parameters it returns 400 without touching the store; otherwise
it inserts the record of app.py:341-354 (note: status `"running"`, not
`"pending"`), persists, and starts `process_file_deployment` on a
thread.  The thread start itself has no store effect at submission. -/
def deploy_file (req : FileDeployRequest) (new_id : String) (now : Int)
    (a : AppState) : AppState × DeployResp :=
  if truthy_str req.ft && truthy_str req.file && truthy_str req.user &&
      truthy_str req.targetPath && truthy_list req.vms then
    let md : List (String × String) :=
      [("ft", req.ft.getD ""), ("file", req.file.getD ""),
       ("user", req.user.getD ""), ("target_path", req.targetPath.getD ""),
       ("sudo", py_bool_str req.sudo_flag),
       ("create_backup", py_bool_str req.createBackup)]
    let dep : Deployment :=
      { id := new_id, dtype := "file", status := "running",
        timestamp := .num now, logs := [], vms := req.vms.getD [],
        metadata := md }
    let st1 := store_set a.store new_id dep
    let a1 : AppState := { a with store := st1 }
    (save_deployment_history a1, .accepted new_id)
  else
    (a, .badRequest)

/-- Sets `deployments[i]["status"] = st` (the id is always present at
the call sites, mirroring the in-place dict mutation). -/
def set_status (s : Store) (i st : String) : Store :=
  store_update s i (fun d => { d with status := st })

/-- External interactions of one `process_file_deployment` run.  The
playbook/inventory writes and the ansible subprocess are external IO
(app.py:397-515); each is either a result or a raised exception. -/
structure FileEnv where
  sourceExists : Bool
  writeError : Option String
  sshTestLines : List String
  procResult : Except String (List String × Int)
deriving Repr

/-- Marks a job failed and persists: the common tail of the not-found
early return (app.py:382-386), the nonzero-exit branch (app.py:522-524
plus app.py:535) and the exception handler (app.py:538-541). -/
def fail_and_save (a : AppState) (i line : String) : AppState :=
  let a1 := log_message a i line
  let a2 := { a1 with store := set_status a1.store i "failed" }
  save_deployment_history a2

/-- Marks a job succeeded and persists (app.py:518-519 plus 535). -/
def succeed_and_save (a : AppState) (i line : String) : AppState :=
  let a1 := log_message a i line
  let a2 := { a1 with store := set_status a1.store i "success" }
  save_deployment_history a2

/-- Body of the `try` block of `process_file_deployment`
(app.py:368-535), written as the sequence of field reads
(`deployment["ft"]` raises `KeyError`, whose `str()` is the key name —
CPython quotes it, the quotes are omitted), external file writes, log
appends and the subprocess run.  An error result carries the state
mutated up to the raise point and the exception message.  Lines logged
by the ssh-test loop come from `env.sshTestLines` because that loop
absorbs its own exceptions (app.py:481-488); the temporary-file
cleanup also absorbs its own errors (app.py:527-532). -/
def file_deploy_try (i : String) (dep : Deployment) (env : FileEnv)
    (a0 : AppState) : Except (AppState × String) AppState :=
  match List.lookup "ft" dep.metadata with
  | none => .error (a0, "ft")
  | some ft =>
  match List.lookup "file" dep.metadata with
  | none => .error (a0, "file")
  | some file =>
  match List.lookup "user" dep.metadata with
  | none => .error (a0, "user")
  | some _user =>
  match List.lookup "target_path" dep.metadata with
  | none => .error (a0, "target_path")
  | some _target_path =>
  let vms := dep.vms
  let source_file := "/app/fixfiles/AllFts/" ++ ft ++ "/" ++ file
  if !env.sourceExists then
    .ok (fail_and_save a0 i ("ERROR: Source file not found: " ++ source_file))
  else
  let a1 := log_message a0 i
    ("Starting file deployment for " ++ file ++ " to " ++
      toString vms.length ++ " VMs")
  match env.writeError with
  | some m => .error (a1, m)
  | none =>
  let a2 := log_message a1 i
    ("Created inventory file with targets: " ++ String.intercalate ", " vms)
  let a3 := env.sshTestLines.foldl (fun acc l => log_message acc i l) a2
  let a4 := log_message a3 i
    "Ensured ansible control path directory exists with permissions 777"
  let a5 := log_message a4 i
    ("Executing: ansible-playbook -i /tmp/inventory_" ++ i ++
      " /tmp/file_deploy_" ++ i ++ ".yml -v")
  match env.procResult with
  | .error m => .error (a5, m)
  | .ok (lines, rc) =>
  let a6 := lines.foldl (fun acc l => log_message acc i l) a5
  if rc = 0 then
    .ok (succeed_and_save a6 i "SUCCESS: File deployment completed successfully")
  else
    .ok (fail_and_save a6 i "ERROR: File deployment failed")

/-- Embeds `process_file_deployment` (app.py:365-541).  The lookup
`deployments[deployment_id]` at app.py:366 sits outside the `try`, so an
unknown id raises `KeyError` past the function; any error raised inside
the `try` is absorbed by app.py:537-541, which appends a final error log
line, sets status failed and persists. -/
def process_file_deployment (deployment_id : String) (env : FileEnv)
    (a : AppState) : AppState × Option PyErr :=
  match store_lookup a.store deployment_id with
  | none => (a, some (.keyError deployment_id))
  | some dep =>
    match file_deploy_try deployment_id dep env a with
    | .ok a1 => (a1, none)
    | .error (a1, msg) =>
      (fail_and_save a1 deployment_id
        ("ERROR: Exception during file deployment: " ++ msg), none)

/-- Message of the `AttributeError` raised whenever db_routes.py calls
`thread_manager.log_thread_safe`: the `ThreadManager` class
(thread_manager.py:52-354) defines no such attribute and nothing ever
assigns one.  CPython renders the two names quoted; the quotes are
omitted in the model. -/
def log_thread_safe_err : String :=
  "ThreadManager object has no attribute log_thread_safe"

/-- Field keys read by `process_sql_deployment` (db_routes.py:121-126). -/
def sql_required_fields : List String :=
  ["ft", "file", "hostname", "port", "db_name", "user"]

/-- First key of `ks` missing from the record, if any. -/
def first_missing (d : Deployment) : List String → Option String
  | [] => none
  | k :: ks =>
    match List.lookup k d.metadata with
    | some _ => first_missing d ks
    | none => some k

/-- Embeds `process_sql_deployment` (db_routes.py:105-268).  Inside the
`try`, db_routes.py:116 (unknown id) or db_routes.py:129 (known id)
calls `thread_manager.log_thread_safe`, which raises `AttributeError`
because `ThreadManager` has no such attribute; db_routes.py:130-237 are
therefore unreachable.  The matching handler (`except KeyError` at
251-258 when a required field read raised first, otherwise the
catch-all `except Exception` at 260-268) appends its error log line via
`log_message` and then itself calls `log_thread_safe` (db_routes.py:254
resp. 264), so the `AttributeError` escapes the handler before the
status assignment (db_routes.py:256-257 resp. 266-267) is reached: the
record is left with its prior status and the error propagates to the
caller. -/
def process_sql_deployment (deployment_id : String) (a : AppState) :
    AppState × Option PyErr :=
  match store_lookup a.store deployment_id with
  | none =>
      (a, some (.attributeError log_thread_safe_err))
  | some dep =>
    match first_missing dep sql_required_fields with
    | some k =>
        let a1 := log_message a deployment_id
          ("ERROR: KeyError in SQL deployment thread: missing key " ++ k)
        (a1, some (.attributeError log_thread_safe_err))
    | none =>
        let a1 := log_message a deployment_id
          ("ERROR: Unexpected error during SQL deployment: " ++ log_thread_safe_err)
        (a1, some (.attributeError log_thread_safe_err))

/-- State of one `ThreadManager` (thread_manager.py:52-96) restricted to
the fields the claims mention.  `executor` is the optional
`ThreadPoolExecutor` handle. -/
structure ThreadManager where
  max_workers : Nat
  sync_mode : Bool
  executor : Option Unit
deriving DecidableEq, Repr

/-- Embeds `ThreadManager.__init__` (thread_manager.py:58-96):
`self.max_workers = max_workers or 1` (Python `or`, so `0` and `None`
both become 1), `self.sync_mode = True` unconditionally, and
`self.executor = None`; the executor-creating branch at
thread_manager.py:69-83 is dead because `sync_mode` is always true. -/
def ThreadManager.make (max_workers : Option Nat) : ThreadManager :=
  let mw := match max_workers with
    | none => 1
    | some n => if n = 0 then 1 else n
  { max_workers := mw, sync_mode := true, executor := none }

/-- The module-level instance `thread_manager = ThreadManager(max_workers=1)`
(thread_manager.py:357). -/
def thread_manager : ThreadManager := ThreadManager.make (some 1)

/-- Embeds `ThreadManager.safe_thread_start` (thread_manager.py:98-179)
in its live branch: with `sync_mode` set the target runs inline on the
caller and the method returns `True` on normal return and `False` when
the target raises (thread_manager.py:107-117).  The async branch at
thread_manager.py:119-179 is dead code (`sync_mode` is always true) and
is not modelled; for uniformity it is rendered as a rejection. -/
def safe_thread_start (tm : ThreadManager)
    (target : AppState → AppState × Option PyErr) (a : AppState) :
    AppState × Bool :=
  if tm.sync_mode then
    let r := target a
    (r.1, r.2.isNone)
  else
    (a, false)

/-- Embeds `ThreadManager.submit_deployment_task`
(thread_manager.py:198-225) in its live branch: with `sync_mode` set it
runs `_wrapped_task` inline, returns the task id on normal completion,
and re-raises the task's exception to the caller
(thread_manager.py:202-211; `_wrapped_task` at 227-245 also re-raises).
The executor branch at thread_manager.py:213-225 is dead code. -/
def submit_deployment_task (tm : ThreadManager)
    (task : AppState → AppState × Option PyErr) (task_id : String)
    (a : AppState) : AppState × Except PyErr String :=
  if tm.sync_mode then
    let r := task a
    match r.2 with
    | none => (r.1, .ok task_id)
    | some e => (r.1, .error e)
  else
    (a, .error (.exc "executor path unreachable"))

/-- JSON values, the serialization format of the snapshot file
(`json.dump` / `json.load` in app.py:134-163 and app.py:62-95). -/
inductive Json where
  | null
  | jbool (b : Bool)
  | num (n : Int)
  | str (s : String)
  | arr (elems : List Json)
  | obj (fields : List (String × Json))

/-- JSON encoding of a timestamp field value. -/
def encode_ts : TsVal → Json
  | .num n => .num n
  | .str s => .str s

/-- JSON encoding of one deployment record, the object `json.dump`
writes for one dict entry.  JSON object key order is immaterial to the
dict that `json.load` rebuilds; the model fixes the canonical order
id, type, status, timestamp, logs, vms, then the metadata fields. -/
def encode_deployment (d : Deployment) : Json :=
  .obj ([("id", .str d.id), ("type", .str d.dtype), ("status", .str d.status),
         ("timestamp", encode_ts d.timestamp),
         ("logs", .arr (d.logs.map Json.str)),
         ("vms", .arr (d.vms.map Json.str))] ++
        d.metadata.map (fun kv => (kv.1, Json.str kv.2)))

/-- JSON encoding of the whole store, the content `save_deployment_history`
writes to the canonical snapshot file (app.py:149-150). -/
def encode_store (s : Store) : Json :=
  .obj (s.map (fun kd => (kd.1, encode_deployment kd.2)))

/-- Decodes a JSON array of strings (a log or vm list). -/
def decode_strings : List Json → Option (List String)
  | [] => some []
  | .str s :: rest => (decode_strings rest).map (fun l => s :: l)
  | _ => none

/-- Decodes the metadata tail of a record object. -/
def decode_meta : List (String × Json) → Option (List (String × String))
  | [] => some []
  | (k, .str v) :: rest => (decode_meta rest).map (fun l => (k, v) :: l)
  | _ => none

/-- Decodes a timestamp field value. -/
def decode_ts : Json → Option TsVal
  | .num n => some (.num n)
  | .str s => some (.str s)
  | _ => none

/-- Decodes one deployment record object (the inverse reading performed
when `json.load` rebuilds the dict entry). -/
def decode_deployment : Json → Option Deployment
  | .obj (("id", .str i) :: ("type", .str t) :: ("status", .str st) ::
      ("timestamp", tj) :: ("logs", .arr lj) :: ("vms", .arr vj) :: rest) =>
    match decode_ts tj, decode_strings lj, decode_strings vj, decode_meta rest with
    | some ts, some logs, some vms, some md =>
        some { id := i, dtype := t, status := st, timestamp := ts,
               logs := logs, vms := vms, metadata := md }
    | _, _, _, _ => none
  | _ => none

/-- Decodes the entries of the top-level snapshot object. -/
def decode_store_fields : List (String × Json) → Option Store
  | [] => some []
  | (k, j) :: rest =>
    match decode_deployment j, decode_store_fields rest with
    | some d, some s => some ((k, d) :: s)
    | _, _ => none

/-- Decodes a snapshot file content back into a store (`json.load`). -/
def decode_store : Json → Option Store
  | .obj fields => decode_store_fields fields
  | _ => none

/-- Result of opening and `json.load`-ing one history file: either the
store it holds or a `json.JSONDecodeError`. -/
inductive FileParse where
  | parsed (st : Store)
  | garbage
deriving DecidableEq, Repr

/-- Files of the logs directory relevant to the module-level load
(app.py:62-95): the canonical `deployment_history.json` (absent or
content), the `deployment_history_*.json` backup files (name, content),
and the quarantine files the load itself creates.  A quarantine file
name also matches the backup glob pattern in later runs; the claims
only concern a single load, so the lists are kept apart. -/
structure HistoryFs where
  canonical : Option FileParse
  backups : List (String × FileParse)
  quarantined : List (String × FileParse)
deriving DecidableEq, Repr

/-- Insertion step of descending sort by file name. -/
def insert_desc_name (x : String × FileParse) :
    List (String × FileParse) → List (String × FileParse)
  | [] => [x]
  | y :: ys => if y.1 < x.1 then x :: y :: ys else y :: insert_desc_name x ys

/-- Embeds `sorted(glob.glob(...), reverse=True)` (app.py:77): backup
file names in descending lexicographic order. -/
def sort_desc_by_name (l : List (String × FileParse)) :
    List (String × FileParse) :=
  l.foldr insert_desc_name []

/-- First backup in the given order whose content parses
(app.py:80-88: try each, continue on error). -/
def first_parsed : List (String × FileParse) → Option Store
  | [] => none
  | (_, .parsed st) :: _ => some st
  | (_, .garbage) :: rest => first_parsed rest

/-- Embeds the module-level deployment-history load (app.py:62-95).
If the canonical file exists and parses, that store is used.  If it
exists but fails to parse, it is renamed to the timestamped quarantine
name `deployment_history_corrupt_{int(time.time())}.json`
(app.py:71-74) and the store starts empty: this branch never consults
the backups.  Only when the canonical file is absent are backups tried
newest-name-first (app.py:76-88); when none exists at all an empty
canonical file is written (app.py:92-93).  The surrounding
`try/except` (app.py:62,94-95) absorbs everything, so the load is a
total function. -/
def load_deployment_history (now : Int) (fs : HistoryFs) : HistoryFs × Store :=
  match fs.canonical with
  | some (.parsed st) => (fs, st)
  | some .garbage =>
      let qname := "deployment_history_corrupt_" ++ toString now ++ ".json"
      let fs1 : HistoryFs :=
        { canonical := none, backups := fs.backups,
          quarantined := fs.quarantined ++ [(qname, FileParse.garbage)] }
      (fs1, [])
  | none =>
      if fs.backups.isEmpty then
        ({ fs with canonical := some (.parsed []) }, [])
      else
        match first_parsed (sort_desc_by_name fs.backups) with
        | some st => (fs, st)
        | none => (fs, [])

/-- True when every record's timestamp field still holds a number (the
shape every submission route writes). -/
def all_ts_num (s : Store) : Bool :=
  s.all (fun kd => match kd.2.timestamp with | .num _ => true | .str _ => false)

/-- Numeric value of a timestamp field (`x.get("timestamp", 0)` for the
sort key of app.py:844); only meaningful under `all_ts_num`. -/
def ts_key (d : Deployment) : Int :=
  match d.timestamp with
  | .num n => n
  | .str _ => 0

/-- Insertion step of descending sort by timestamp. -/
def insert_desc_ts (x : Deployment) : List Deployment → List Deployment
  | [] => [x]
  | y :: ys => if ts_key y < ts_key x then x :: y :: ys else y :: insert_desc_ts x ys

/-- Embeds `sorted(..., key=..., reverse=True)` of app.py:842-846. -/
def sort_desc_by_ts (l : List Deployment) : List Deployment :=
  l.foldr insert_desc_ts []

/-- The in-place overwrite performed by app.py:850 on one record: the
timestamp field is replaced by the formatted string that
`time.strftime` with `time.localtime` produces; `fmt` stands for that
timezone-dependent composition. -/
def stamp_ts (fmt : Int → String) (e : Deployment) : Deployment :=
  { e with timestamp := TsVal.str (fmt (ts_key e)) }

/-- Embeds the route `get_deployment_history` (app.py:824-855).  When
the in-memory store is empty it first reloads from the canonical file
(app.py:828-839; `file_store` is that file's parsed content, empty when
the file is absent or unreadable since those errors are absorbed).  It
then sorts the records newest-first and, crucially, REWRITES each
record's timestamp field in place via `stamp_ts` (app.py:849-853) —
the records in the sorted list ARE the dict objects of the store, so
the store is mutated by this read endpoint.  When any timestamp
already holds a string (as after a previous call), `time.localtime`
raises `TypeError`, modelled by `none`. -/
def get_deployment_history (fmt : Int → String) (file_store : Store)
    (a : AppState) : Option (AppState × List Deployment) :=
  let st0 := if a.store.isEmpty && !file_store.isEmpty then file_store else a.store
  if all_ts_num st0 then
    let sorted := sort_desc_by_ts (st0.map (fun kd => kd.2))
    let out := sorted.map (stamp_ts fmt)
    let st1 := st0.map (fun kd => (kd.1, stamp_ts fmt kd.2))
    some ({ store := st1, saves := a.saves }, out)
  else none

/-- Events of the server-sent-events stream of
`get_deployment_logs` (app.py:866-901); the `data: {json}` envelope is
immaterial to the claims and elided. -/
inductive SseEvent where
  | message (line : String)
  | statusMark (st : String)
  | notFound (msg : String)
deriving DecidableEq, Repr

/-- Embeds the SSE generator of `get_deployment_logs` (app.py:866-901)
on the cases in which the produced event sequence is finite against a
static store: an unknown id yields exactly one not-found event and ends
(app.py:899-900); a job already in a terminal status yields every log
line in order from offset 0, then the status marker, and returns
(app.py:869-878).  A non-terminal job makes the generator enter the
polling loop over live state (app.py:880-898), outside this static
model, rendered `none`.  The generator reads from its own local
offset, so the result is a pure function of the store: concurrent
streams of the same job are independent by construction. -/
def get_deployment_logs_stream (a : AppState) (deployment_id : String) :
    Option (List SseEvent) :=
  match store_lookup a.store deployment_id with
  | none => some [SseEvent.notFound "Deployment not found"]
  | some d =>
      if d.status = "success" || d.status = "failed" then
        some (d.logs.map SseEvent.message ++ [SseEvent.statusMark d.status])
      else
        none

/-- Response of the clear-history route. -/
inductive ClearResp where
  | badRequest
  | cleared (deleted_count remaining_count : Nat)
deriving DecidableEq, Repr

/-- Embeds the route `clear_deployment_history` (app.py:1121-1154).
Negative `days` is rejected with 400 before anything is touched;
`days == 0` clears the whole dict; otherwise the entries with
`timestamp < now - days*86400` are deleted.  The comparison
`deployment.get('timestamp', 0) < cutoff_time` raises `TypeError` when
a timestamp holds a string (see `get_deployment_history`), modelled by
`none`; the list comprehension runs before any deletion, so in that
case the store is untouched. -/
def clear_deployment_history (days : Int) (now : Int) (a : AppState) :
    Option (AppState × ClearResp) :=
  if days < 0 then some (a, ClearResp.badRequest)
  else
    let cutoff := now - days * 86400
    let initial := a.store.length
    if days = 0 then
      let a1 := save_deployment_history { a with store := [] }
      some (a1, ClearResp.cleared initial 0)
    else
      if all_ts_num a.store then
        let kept := a.store.filter (fun kd => !(decide (ts_key kd.2 < cutoff)))
        let a1 := save_deployment_history { a with store := kept }
        some (a1, ClearResp.cleared (initial - kept.length) kept.length)
      else none

/-- Rank of a status in the lifecycle order pending < running <
terminal; success and failed share the terminal rank. -/
def status_rank : String → Nat
  | "running" => 1
  | "success" => 2
  | "failed" => 2
  | _ => 0

/-- State `b` never shows a job at an earlier lifecycle stage than
state `a` did. -/
def status_mono (a b : AppState) : Prop :=
  ∀ id d d2, store_lookup a.store id = some d →
    store_lookup b.store id = some d2 →
    status_rank d.status ≤ status_rank d2.status

/-- Builder for small concrete records used in concrete evaluations. -/
def mk_job (i dt st : String) (ts : Int) : Deployment :=
  { id := i, dtype := dt, status := st, timestamp := TsVal.num ts,
    logs := [], vms := [], metadata := [] }

/-- Metadata of a well-formed SQL deployment record (db_routes.py:78-90). -/
def sql_meta : List (String × String) :=
  [("ft", "FT100"), ("file", "fix.sql"), ("hostname", "dbhost"),
   ("port", "5432"), ("db_name", "maindb"), ("user", "dbuser")]

/-- A submitted SQL job, as `deploy_sql` stores it before starting the
runner (db_routes.py:78-90): status running, empty log. -/
def sql_job : Deployment :=
  { id := "d1", dtype := "sql", status := "running",
    timestamp := TsVal.num 100, logs := [], vms := [], metadata := sql_meta }

/-- Store holding exactly the submitted SQL job. -/
def sql_state : AppState := { store := [("d1", sql_job)], saves := 0 }

/-- A complete, valid file-deployment request body. -/
def file_req : FileDeployRequest :=
  { ft := some "FT100", file := some "fix.txt", user := some "infadm",
    targetPath := some "/opt/app", vms := some ["batch1"],
    sudo_flag := false, createBackup := true }

/-- A task that raises (`RuntimeError("boom")` in spirit). -/
def boom_target : AppState → AppState × Option PyErr :=
  fun a => (a, some (PyErr.exc "boom"))

/-- A task that returns normally without touching state. -/
def noop_task : AppState → AppState × Option PyErr := fun a => (a, none)

/-- The empty module state. -/
def idle_state : AppState := { store := [], saves := 0 }

/-- Store recovered from a parseable backup file. -/
def backup_store : Store := [("b1", mk_job "b1" "file" "success" 1)]

/-- Filesystem with a corrupt canonical snapshot AND a parseable
backup, the discriminating input for the load fallback behavior. -/
def corrupt_fs : HistoryFs :=
  { canonical := some FileParse.garbage,
    backups := [("deployment_history_20240101000000.json", FileParse.parsed backup_store)],
    quarantined := [] }

/-- Store with one running job, log still empty. -/
def running_state : AppState :=
  { store := [("j1", mk_job "j1" "file" "running" 10)], saves := 0 }

/-- Five successive appends to the running job via `log_message`. -/
def append5 : AppState :=
  log_message (log_message (log_message (log_message
    (log_message running_state "j1" "a") "j1" "b") "j1" "c") "j1" "d") "j1" "e"

/-- An external environment for one file-deployment run (all external
steps succeed; contents immaterial because the record under test lacks
its required fields, so the runner fails before using them). -/
def fail_env : FileEnv :=
  { sourceExists := true, writeError := none, sshTestLines := [],
    procResult := Except.ok ([], 0) }

/-- The record of `running_state` after `process_file_deployment` hits
the `KeyError` for the missing `ft` field: error line appended, status
failed. -/
def failed_job_after : Deployment :=
  { id := "j1", dtype := "file", status := "failed",
    timestamp := TsVal.num 10,
    logs := ["ERROR: Exception during file deployment: ft"],
    vms := [], metadata := [] }

/-- A finished job with two log lines. -/
def done_job : Deployment :=
  { id := "j2", dtype := "file", status := "success",
    timestamp := TsVal.num 20, logs := ["a", "b"], vms := [], metadata := [] }

/-- Store holding exactly the finished job. -/
def done_state : AppState := { store := [("j2", done_job)], saves := 0 }

/-- Stand-in for the timezone-dependent
`time.strftime('%Y-%m-%dT%H:%M:%S', time.localtime(n))` composition. -/
def c8_fmt : Int → String := fun n => "TS:" ++ toString n

/-- Module state after one history fetch over `running_state`. -/
def history_after : AppState :=
  ((get_deployment_history c8_fmt [] running_state).getD (running_state, [])).1

/-- Store with one job older and one job newer than a one-day cutoff
taken at `now = 172800`. -/
def purge_state : AppState :=
  { store := [("old", mk_job "old" "file" "success" 0),
              ("new", mk_job "new" "file" "success" 150000)], saves := 0 }

/-- Expected outcome of `clear_deployment_history 1 172800 purge_state`. -/
def purge_result : AppState × ClearResp :=
  ({ store := [("new", mk_job "new" "file" "success" 150000)], saves := 1 },
   ClearResp.cleared 1 1)

/-! Base lemmas about the store primitives. -/

theorem store_lookup_update (s : Store) (i id : String)
    (f : Deployment → Deployment) :
    store_lookup (store_update s i f) id =
      if i = id then (store_lookup s id).map f else store_lookup s id := by
  induction s with
  | nil => simp [store_update, store_lookup]
  | cons kd rest ih =>
    obtain ⟨k, d⟩ := kd
    by_cases hk : k = i
    · subst hk
      rw [store_update, if_pos rfl]
      by_cases hid : k = id
      · subst hid
        simp [store_lookup]
      · simp [store_lookup, hid, ih]
    · rw [store_update, if_neg hk]
      by_cases hid : k = id
      · subst hid
        have hii : ¬ i = k := fun h => hk h.symm
        simp [store_lookup, hii]
      · simp [store_lookup, hid, ih]

theorem store_lookup_set_self (s : Store) (i : String) (d : Deployment) :
    store_lookup (store_set s i d) i = some d := by
  induction s with
  | nil => simp [store_set, store_lookup]
  | cons kd rest ih =>
    obtain ⟨k, e⟩ := kd
    by_cases hk : k = i
    · subst hk; simp [store_set, store_lookup]
    · simp [store_set, store_lookup, hk, ih]

theorem store_lookup_set_other (s : Store) (i id : String) (d : Deployment)
    (h : ¬ i = id) :
    store_lookup (store_set s i d) id = store_lookup s id := by
  induction s with
  | nil => simp [store_set, store_lookup, h]
  | cons kd rest ih =>
    obtain ⟨k, e⟩ := kd
    by_cases hk : k = i
    · subst hk
      simp [store_set, store_lookup, h]
    · by_cases hid : k = id
      · subst hid; simp [store_set, store_lookup, hk]
      · simp [store_set, store_lookup, hk, hid, ih]

theorem log_message_saves (a : AppState) (i m : String) :
    (log_message a i m).saves = a.saves := by
  unfold log_message
  split <;> rfl

theorem log_message_status (a : AppState) (i m id : String) :
    (store_lookup (log_message a i m).store id).map Deployment.status =
      (store_lookup a.store id).map Deployment.status := by
  unfold log_message
  split
  · rename_i d h
    simp only [store_lookup_update]
    by_cases hii : i = id
    · subst hii
      rw [h]
      simp
    · simp [hii]
  · rfl

theorem log_message_lookup_self (a : AppState) (i m : String) (d : Deployment)
    (h : store_lookup a.store i = some d) :
    store_lookup (log_message a i m).store i =
      some { d with logs := d.logs ++ [m] } := by
  unfold log_message
  rw [h]
  simp [store_lookup_update, h]

theorem log_message_lookup_other (a : AppState) (i m id : String)
    (h : ¬ i = id) :
    store_lookup (log_message a i m).store id = store_lookup a.store id := by
  unfold log_message
  split
  · simp [store_lookup_update, h]
  · rfl

theorem log_message_unknown (a : AppState) (i m : String)
    (h : store_lookup a.store i = none) :
    log_message a i m = a := by
  unfold log_message
  rw [h]

theorem fold_log_status (i id : String) (lines : List String) (a : AppState) :
    (store_lookup ((lines.foldl (fun acc l => log_message acc i l) a)).store id).map
        Deployment.status =
      (store_lookup a.store id).map Deployment.status := by
  induction lines generalizing a with
  | nil => rfl
  | cons l rest ih =>
    rw [List.foldl_cons, ih]
    exact log_message_status a i l id

theorem fold_log_saves (i : String) (lines : List String) (a : AppState) :
    ((lines.foldl (fun acc l => log_message acc i l) a)).saves = a.saves := by
  induction lines generalizing a with
  | nil => rfl
  | cons l rest ih =>
    rw [List.foldl_cons, ih]
    exact log_message_saves a i l

theorem opt_const_of_status (o o2 : Option Deployment) (c : String)
    (h : o.map Deployment.status = o2.map Deployment.status) :
    o.map (fun _ => c) = o2.map (fun _ => c) := by
  cases o <;> cases o2 <;> simp_all

theorem fail_and_save_status (a : AppState) (i line id : String) :
    (store_lookup (fail_and_save a i line).store id).map Deployment.status =
      if i = id then (store_lookup a.store id).map (fun _ => "failed")
      else (store_lookup a.store id).map Deployment.status := by
  unfold fail_and_save set_status
  simp only [save_deployment_history, store_lookup_update]
  have hst := log_message_status a i line id
  by_cases hii : i = id
  · subst hii
    cases h1 : store_lookup (log_message a i line).store i <;>
      cases h2 : store_lookup a.store i <;> simp [h1, h2] at hst ⊢
  · simp [hii, hst]

theorem succeed_and_save_status (a : AppState) (i line id : String) :
    (store_lookup (succeed_and_save a i line).store id).map Deployment.status =
      if i = id then (store_lookup a.store id).map (fun _ => "success")
      else (store_lookup a.store id).map Deployment.status := by
  unfold succeed_and_save set_status
  simp only [save_deployment_history, store_lookup_update]
  have hst := log_message_status a i line id
  by_cases hii : i = id
  · subst hii
    cases h1 : store_lookup (log_message a i line).store i <;>
      cases h2 : store_lookup a.store i <;> simp [h1, h2] at hst ⊢
  · simp [hii, hst]

theorem file_deploy_try_ok_status (i : String) (dep : Deployment)
    (env : FileEnv) (a0 : AppState) (id : String) (a1 : AppState)
    (h : file_deploy_try i dep env a0 = .ok a1) :
    (store_lookup a1.store id).map Deployment.status =
      (if i = id then (store_lookup a0.store id).map (fun _ => "failed")
       else (store_lookup a0.store id).map Deployment.status) ∨
    (store_lookup a1.store id).map Deployment.status =
      (if i = id then (store_lookup a0.store id).map (fun _ => "success")
       else (store_lookup a0.store id).map Deployment.status) := by
  unfold file_deploy_try at h
  split at h
  · exact absurd h (by simp)
  · split at h
    · exact absurd h (by simp)
    · split at h
      · exact absurd h (by simp)
      · split at h
        · exact absurd h (by simp)
        · split at h
          · left
            simp only [Except.ok.injEq] at h
            subst h
            exact fail_and_save_status a0 i _ id
          · split at h
            · exact absurd h (by simp)
            · split at h
              · exact absurd h (by simp)
              · split at h
                · right
                  simp only [Except.ok.injEq] at h
                  subst h
                  rw [succeed_and_save_status]
                  by_cases hii : i = id
                  · simp only [hii, if_pos rfl]
                    exact opt_const_of_status _ _ _
                      (by simp only [fold_log_status, log_message_status])
                  · simp only [if_neg hii]
                    simp only [fold_log_status, log_message_status]
                · left
                  simp only [Except.ok.injEq] at h
                  subst h
                  rw [fail_and_save_status]
                  by_cases hii : i = id
                  · simp only [hii, if_pos rfl]
                    exact opt_const_of_status _ _ _
                      (by simp only [fold_log_status, log_message_status])
                  · simp only [if_neg hii]
                    simp only [fold_log_status, log_message_status]

theorem file_deploy_try_error_status (i : String) (dep : Deployment)
    (env : FileEnv) (a0 : AppState) (id : String) (p : AppState × String)
    (h : file_deploy_try i dep env a0 = .error p) :
    (store_lookup p.1.store id).map Deployment.status =
      (store_lookup a0.store id).map Deployment.status := by
  unfold file_deploy_try at h
  split at h
  · simp only [Except.error.injEq] at h
    subst h
    rfl
  · split at h
    · simp only [Except.error.injEq] at h
      subst h
      rfl
    · split at h
      · simp only [Except.error.injEq] at h
        subst h
        rfl
      · split at h
        · simp only [Except.error.injEq] at h
          subst h
          rfl
        · split at h
          · exact absurd h (by simp)
          · split at h
            · simp only [Except.error.injEq] at h
              subst h
              exact log_message_status a0 i _ id
            · split at h
              · simp only [Except.error.injEq] at h
                subst h
                simp only [fold_log_status, log_message_status]
              · split at h <;> exact absurd h (by simp)

theorem status_rank_le_two (s : String) : status_rank s ≤ 2 := by
  unfold status_rank
  split <;> omega

theorem status_rank_failed : status_rank "failed" = 2 := rfl

theorem status_rank_success : status_rank "success" = 2 := rfl

theorem process_file_status_mono (i : String) (env : FileEnv) (a : AppState) :
    status_mono a (process_file_deployment i env a).1 := by
  intro id d d2 h1 h2
  unfold process_file_deployment at h2
  split at h2
  · have h2x : store_lookup a.store id = some d2 := h2
    rw [h1] at h2x
    cases h2x
    exact le_refl _
  · rename_i dep hdep
    split at h2
    · rename_i a1 htry
      have h2x : store_lookup a1.store id = some d2 := h2
      have hok := file_deploy_try_ok_status i dep env a id a1 htry
      rcases hok with hc | hc
      · by_cases hii : i = id
        · rw [if_pos hii, h1, h2x] at hc
          simp only [Option.map_some', Option.some.injEq] at hc
          rw [hc, status_rank_failed]
          exact status_rank_le_two _
        · rw [if_neg hii, h1, h2x] at hc
          simp only [Option.map_some', Option.some.injEq] at hc
          rw [hc]
      · by_cases hii : i = id
        · rw [if_pos hii, h1, h2x] at hc
          simp only [Option.map_some', Option.some.injEq] at hc
          rw [hc, status_rank_success]
          exact status_rank_le_two _
        · rw [if_neg hii, h1, h2x] at hc
          simp only [Option.map_some', Option.some.injEq] at hc
          rw [hc]
    · rename_i a1 msg herr
      have h2x : store_lookup (fail_and_save a1 i
          ("ERROR: Exception during file deployment: " ++ msg)).store id =
          some d2 := h2
      have hfs := fail_and_save_status a1 i
        ("ERROR: Exception during file deployment: " ++ msg) id
      have herr2 := file_deploy_try_error_status i dep env a id (a1, msg) herr
      rw [h2x] at hfs
      rw [h1] at herr2
      by_cases hii : i = id
      · rw [if_pos hii] at hfs
        cases hp : store_lookup a1.store id with
        | none =>
          rw [hp] at herr2
          cases herr2
        | some e =>
          rw [hp] at hfs
          simp only [Option.map_some', Option.some.injEq] at hfs
          rw [hfs, status_rank_failed]
          exact status_rank_le_two _
      · rw [if_neg hii, herr2] at hfs
        simp only [Option.map_some', Option.some.injEq] at hfs
        rw [hfs]

theorem process_sql_status_mono (i : String) (a : AppState) :
    status_mono a (process_sql_deployment i a).1 := by
  intro id d d2 h1 h2
  unfold process_sql_deployment at h2
  split at h2
  · have h2x : store_lookup a.store id = some d2 := h2
    rw [h1] at h2x
    cases h2x
    exact le_refl _
  · rename_i dep hdep
    split at h2
    · rename_i k hmiss
      have h2x : store_lookup (log_message a i
          ("ERROR: KeyError in SQL deployment thread: missing key " ++ k)).store
          id = some d2 := h2
      have hst := log_message_status a i
        ("ERROR: KeyError in SQL deployment thread: missing key " ++ k) id
      rw [h2x, h1] at hst
      simp only [Option.map_some', Option.some.injEq] at hst
      rw [hst]
    · have h2x : store_lookup (log_message a i
          ("ERROR: Unexpected error during SQL deployment: " ++
            log_thread_safe_err)).store id = some d2 := h2
      have hst := log_message_status a i
        ("ERROR: Unexpected error during SQL deployment: " ++
          log_thread_safe_err) id
      rw [h2x, h1] at hst
      simp only [Option.map_some', Option.some.injEq] at hst
      rw [hst]

theorem log_message_status_mono (a : AppState) (i m : String) :
    status_mono a (log_message a i m) := by
  intro id d d2 h1 h2
  have hst := log_message_status a i m id
  rw [h2, h1] at hst
  simp only [Option.map_some', Option.some.injEq] at hst
  rw [hst]

theorem store_lookup_eq_none (s : Store) (i : String)
    (h : i ∉ s.map Prod.fst) : store_lookup s i = none := by
  induction s with
  | nil => rfl
  | cons kd rest ih =>
    obtain ⟨k, e⟩ := kd
    simp only [List.map_cons, List.mem_cons] at h
    push_neg at h
    have hk : ¬ k = i := fun he => h.1 he.symm
    simp [store_lookup, hk, ih h.2]

theorem store_lookup_filter_sub (p : String × Deployment → Bool) (s : Store)
    (i : String) (d2 : Deployment) (hnd : (s.map Prod.fst).Nodup)
    (h : store_lookup (s.filter p) i = some d2) :
    store_lookup s i = some d2 := by
  induction s with
  | nil => exact h
  | cons kd rest ih =>
    obtain ⟨k, e⟩ := kd
    simp only [List.map_cons, List.nodup_cons] at hnd
    by_cases hp : p (k, e)
    · rw [List.filter_cons_of_pos hp] at h
      by_cases hk : k = i
      · subst hk
        rw [store_lookup, if_pos rfl] at h
        rw [store_lookup, if_pos rfl]
        exact h
      · rw [store_lookup, if_neg hk] at h
        rw [store_lookup, if_neg hk]
        exact ih hnd.2 h
    · rw [List.filter_cons_of_neg hp] at h
      by_cases hk : k = i
      · subst hk
        have hnone : store_lookup rest k = none :=
          store_lookup_eq_none rest k hnd.1
        have := ih hnd.2 h
        rw [hnone] at this
        cases this
      · rw [store_lookup, if_neg hk]
        exact ih hnd.2 h

theorem store_lookup_map_values (g : Deployment → Deployment) (s : Store)
    (id : String) :
    store_lookup (s.map (fun kd => (kd.1, g kd.2))) id =
      (store_lookup s id).map g := by
  induction s with
  | nil => rfl
  | cons kd rest ih =>
    obtain ⟨k, e⟩ := kd
    by_cases hk : k = id
    · subst hk
      simp [store_lookup]
    · simp [store_lookup, hk, ih]

theorem clear_status_mono (days now : Int) (a : AppState)
    (r : AppState × ClearResp) (hnd : (a.store.map Prod.fst).Nodup)
    (h : clear_deployment_history days now a = some r) :
    status_mono a r.1 := by
  intro id d d2 h1 h2
  unfold clear_deployment_history at h
  split at h
  · simp only [Option.some.injEq] at h
    subst h
    have h2x : store_lookup a.store id = some d2 := h2
    rw [h1] at h2x
    cases h2x
    exact le_refl _
  · split at h
    · simp only [Option.some.injEq] at h
      subst h
      have h2x : store_lookup ([] : Store) id = some d2 := h2
      cases h2x
    · split at h
      · simp only [Option.some.injEq] at h
        subst h
        have h2x : store_lookup (a.store.filter
            (fun kd => !(decide (ts_key kd.2 < now - days * 86400)))) id =
            some d2 := h2
        have := store_lookup_filter_sub _ _ _ _ hnd h2x
        rw [h1] at this
        cases this
        exact le_refl _
      · cases h

theorem history_status_mono (fmt : Int → String) (file_store : Store)
    (a : AppState) (r : AppState × List Deployment)
    (h : get_deployment_history fmt file_store a = some r) :
    status_mono a r.1 := by
  intro id d d2 h1 h2
  have hne : a.store.isEmpty = false := by
    cases hs : a.store with
    | nil => rw [hs] at h1; cases h1
    | cons kd rest => rfl
  unfold get_deployment_history at h
  rw [hne] at h
  simp only [Bool.false_and, Bool.false_eq_true, if_false] at h
  split at h
  · simp only [Option.some.injEq] at h
    subst h
    have h2x : store_lookup (a.store.map (fun kd =>
        (kd.1, stamp_ts fmt kd.2))) id = some d2 := h2
    rw [store_lookup_map_values (stamp_ts fmt)] at h2x
    rw [h1] at h2x
    simp only [Option.map_some', Option.some.injEq] at h2x
    rw [← h2x]
    exact le_refl _
  · cases h

theorem deploy_file_fresh_mono (req : FileDeployRequest) (new_id : String)
    (now : Int) (a : AppState)
    (hfresh : store_lookup a.store new_id = none) :
    status_mono a (deploy_file req new_id now a).1 := by
  intro id d d2 h1 h2
  have hne : ¬ new_id = id := by
    intro he
    rw [he] at hfresh
    rw [hfresh] at h1
    cases h1
  unfold deploy_file at h2
  split at h2
  · simp only [save_deployment_history] at h2
    have h2x : store_lookup (store_set a.store new_id _) id = some d2 := h2
    rw [store_lookup_set_other _ _ _ _ hne] at h2x
    rw [h1] at h2x
    cases h2x
    exact le_refl _
  · have h2x : store_lookup a.store id = some d2 := h2
    rw [h1] at h2x
    cases h2x
    exact le_refl _

theorem decode_strings_roundtrip (xs : List String) :
    decode_strings (xs.map Json.str) = some xs := by
  induction xs with
  | nil => rfl
  | cons x rest ih => simp [decode_strings, ih]

theorem decode_meta_roundtrip (md : List (String × String)) :
    decode_meta (md.map (fun kv => (kv.1, Json.str kv.2))) = some md := by
  induction md with
  | nil => rfl
  | cons kv rest ih =>
    obtain ⟨k, v⟩ := kv
    simp [decode_meta, ih]

theorem decode_encode_deployment (d : Deployment) :
    decode_deployment (encode_deployment d) = some d := by
  obtain ⟨i, t, st, ts, logs, vms, md⟩ := d
  cases ts <;>
    simp [encode_deployment, encode_ts, decode_deployment, decode_ts,
      decode_strings_roundtrip, decode_meta_roundtrip]

theorem decode_fields_roundtrip (s : Store) :
    decode_store_fields (s.map (fun kd => (kd.1, encode_deployment kd.2))) =
      some s := by
  induction s with
  | nil => rfl
  | cons kd rest ih =>
    obtain ⟨k, d⟩ := kd
    simp [decode_store_fields, decode_encode_deployment, ih]

theorem store_lookup_filter_keep (p : String × Deployment → Bool) (s : Store)
    (i : String) (d : Deployment) (h : store_lookup s i = some d)
    (hp : p (i, d) = true) :
    store_lookup (s.filter p) i = some d := by
  induction s with
  | nil => cases h
  | cons kd rest ih =>
    obtain ⟨k, e⟩ := kd
    by_cases hk : k = i
    · subst hk
      rw [store_lookup, if_pos rfl] at h
      cases h
      rw [List.filter_cons_of_pos hp]
      rw [store_lookup, if_pos rfl]
    · rw [store_lookup, if_neg hk] at h
      by_cases hpk : p (k, e)
      · rw [List.filter_cons_of_pos hpk, store_lookup, if_neg hk]
        exact ih h
      · rw [List.filter_cons_of_neg (by simpa using hpk)]
        exact ih h

theorem store_lookup_filter_none (p : String × Deployment → Bool) (s : Store)
    (i : String) (h : store_lookup s i = none) :
    store_lookup (s.filter p) i = none := by
  induction s with
  | nil => rfl
  | cons kd rest ih =>
    obtain ⟨k, e⟩ := kd
    by_cases hk : k = i
    · subst hk
      rw [store_lookup, if_pos rfl] at h
      cases h
    · rw [store_lookup, if_neg hk] at h
      by_cases hpk : p (k, e)
      · rw [List.filter_cons_of_pos hpk, store_lookup, if_neg hk]
        exact ih h
      · rw [List.filter_cons_of_neg (by simpa using hpk)]
        exact ih h

theorem store_lookup_filter_drop (p : String × Deployment → Bool) (s : Store)
    (i : String) (d : Deployment) (hnd : (s.map Prod.fst).Nodup)
    (h : store_lookup s i = some d) (hp : p (i, d) = false) :
    store_lookup (s.filter p) i = none := by
  induction s with
  | nil => cases h
  | cons kd rest ih =>
    obtain ⟨k, e⟩ := kd
    simp only [List.map_cons, List.nodup_cons] at hnd
    by_cases hk : k = i
    · subst hk
      rw [store_lookup, if_pos rfl] at h
      cases h
      rw [List.filter_cons_of_neg (by simpa using hp)]
      exact store_lookup_filter_none p rest k
        (store_lookup_eq_none rest k hnd.1)
    · rw [store_lookup, if_neg hk] at h
      by_cases hpk : p (k, e)
      · rw [List.filter_cons_of_pos hpk, store_lookup, if_neg hk]
        exact ih hnd.2 h
      · rw [List.filter_cons_of_neg (by simpa using hpk)]
        exact ih hnd.2 h

/-- Claim C1 (code_bug evidence).  The claim says that a job function
raising during execution leads to a final error log line, status
failed, and no propagation past the runner, for every job kind
including SQL.  Evaluating the SQL runner at a well-formed submitted
job shows the opposite: the `AttributeError` from the undefined
`thread_manager.log_thread_safe` (first raised at db_routes.py:129)
escapes the handler (db_routes.py:264 re-raises it before the status
assignment at 266-267), the record is left with status running, the
error line IS appended (db_routes.py:263), and the sync-mode
`submit_deployment_task` re-raises the error to the route layer. -/
theorem sql_runner_error_escapes :
    (process_sql_deployment "d1" sql_state).2 =
      some (PyErr.attributeError log_thread_safe_err) ∧
    (store_lookup (process_sql_deployment "d1" sql_state).1.store "d1").map
      Deployment.status = some "running" ∧
    (store_lookup (process_sql_deployment "d1" sql_state).1.store "d1").map
      Deployment.logs =
      some ["ERROR: Unexpected error during SQL deployment: " ++
        log_thread_safe_err] ∧
    (submit_deployment_task thread_manager
      (fun a => process_sql_deployment "d1" a) "d1" sql_state).2 =
      Except.error (PyErr.attributeError log_thread_safe_err) := by
  refine ⟨rfl, ?_, ?_, rfl⟩ <;> decide

/-- Claim C2 counterexample: the record that `deploy_file` creates for
a valid submission carries status `"running"`, not `"pending"` —
pending never occurs anywhere in the source. -/
theorem deploy_file_creates_running_not_pending :
    (store_lookup (deploy_file file_req "c1" 50 idle_state).1.store "c1").map
      Deployment.status = some "running" ∧
    ¬ ((store_lookup (deploy_file file_req "c1" 50 idle_state).1.store
        "c1").map Deployment.status = some "pending") := by
  decide

/-- Claim C2 (amended): every submission creates its record with status
running (there is no pending state), and no store operation ever moves
a job's status to an earlier lifecycle stage: submissions with a fresh
id leave existing jobs untouched, the runners only move a job to the
terminal rank, and the log/clear/history operations preserve every
surviving job's status. -/
theorem job_status_lifecycle_monotone :
    (∀ req new_id now a,
       (deploy_file req new_id now a).2 = DeployResp.accepted new_id →
       (store_lookup (deploy_file req new_id now a).1.store new_id).map
         Deployment.status = some "running") ∧
    (∀ req new_id now a, store_lookup a.store new_id = none →
       status_mono a (deploy_file req new_id now a).1) ∧
    (∀ i env a, status_mono a (process_file_deployment i env a).1) ∧
    (∀ i a, status_mono a (process_sql_deployment i a).1) ∧
    (∀ a i m, status_mono a (log_message a i m)) ∧
    (∀ days now a r, (a.store.map Prod.fst).Nodup →
       clear_deployment_history days now a = some r → status_mono a r.1) ∧
    (∀ fmt fs a r, get_deployment_history fmt fs a = some r →
       status_mono a r.1) := by
  refine ⟨?_, deploy_file_fresh_mono, process_file_status_mono,
    process_sql_status_mono, log_message_status_mono,
    ?_, ?_⟩
  · intro req new_id now a h
    unfold deploy_file at h ⊢
    split at h
    · rename_i hcond
      rw [if_pos hcond]
      simp only [save_deployment_history]
      rw [store_lookup_set_self]
      rfl
    · simp at h
  · intro days now a r hnd h
    exact clear_status_mono days now a r hnd h
  · intro fmt fs a r h
    exact history_status_mono fmt fs a r h

/-- Claim C2 witness: the lifecycle theorem applied at a concrete valid
submission and at a concrete runner execution that fails the job. -/
theorem job_status_lifecycle_monotone_witness :
    (store_lookup (deploy_file file_req "w1" 50 idle_state).1.store "w1").map
      Deployment.status = some "running" ∧
    status_rank "running" ≤ status_rank "failed" := by
  constructor
  · exact job_status_lifecycle_monotone.1 file_req "w1" 50 idle_state
      (by decide)
  · exact job_status_lifecycle_monotone.2.2.1 "j1" fail_env running_state "j1"
      (mk_job "j1" "file" "running" 10) failed_job_after (by decide) (by decide)

/-- Claim C3 counterexample: with the always-on synchronous mode, a
submitted function that raises makes `safe_thread_start` return
`False` (thread_manager.py:115-117), contradicting the claim that
every submission, raising or not, yields accepted=true. -/
theorem safe_thread_start_false_on_raise :
    ¬ ((safe_thread_start thread_manager boom_target idle_state).2 = true) := by
  decide

/-- Claim C3 (amended): in synchronous mode every submission runs the
supplied function to completion inline on the calling context before
`safe_thread_start` returns (the returned state is the function's
post-state), and the call returns true exactly when the function did
not raise — a raising function has still been run, but the call
returns false. -/
theorem sync_submit_runs_inline (tm : ThreadManager)
    (target : AppState → AppState × Option PyErr) (a : AppState)
    (h : tm.sync_mode = true) :
    (safe_thread_start tm target a).1 = (target a).1 ∧
    ((safe_thread_start tm target a).2 = true ↔ (target a).2 = none) := by
  unfold safe_thread_start
  rw [h]
  constructor
  · rfl
  · cases h2 : (target a).2 <;> simp [h2]

/-- Claim C3 witness: the amended statement applied to the module-level
`thread_manager` and a concrete non-raising task. -/
theorem sync_submit_runs_inline_witness :
    (safe_thread_start thread_manager noop_task idle_state).1 = idle_state ∧
    ((safe_thread_start thread_manager noop_task idle_state).2 = true ↔
      (noop_task idle_state).2 = none) :=
  sync_submit_runs_inline thread_manager noop_task idle_state rfl

/-- Claim C4 counterexample: with a corrupt canonical snapshot AND a
backup that parses to a nonempty store, the load comes up with the
EMPTY store — the corrupt-canonical branch (app.py:68-74) never
consults the backups, which are only tried when the canonical file is
absent (app.py:75-88). -/
theorem corrupt_load_ignores_backups :
    (load_deployment_history 99 corrupt_fs).2 = [] ∧
    first_parsed (sort_desc_by_name corrupt_fs.backups) = some backup_store ∧
    backup_store ≠ [] := by
  decide

/-- Claim C4 (amended): when the canonical snapshot fails to parse, the
load renames it aside to the timestamped corrupt name (the content is
preserved, never deleted) and starts with an empty store WITHOUT
consulting backups; backups are consulted newest-name-first only when
no canonical snapshot file exists, and if none of them parses the
store starts empty.  The surrounding try/except makes the load total:
it never raises. -/
theorem load_quarantines_and_falls_back :
    (∀ now fs, fs.canonical = some FileParse.garbage →
       (load_deployment_history now fs).2 = [] ∧
       (load_deployment_history now fs).1.canonical = none ∧
       (load_deployment_history now fs).1.quarantined =
         fs.quarantined ++
           [("deployment_history_corrupt_" ++ toString now ++ ".json",
             FileParse.garbage)] ∧
       (load_deployment_history now fs).1.backups = fs.backups) ∧
    (∀ now fs st, fs.canonical = none →
       first_parsed (sort_desc_by_name fs.backups) = some st →
       (load_deployment_history now fs).2 = st) ∧
    (∀ now fs, fs.canonical = none →
       first_parsed (sort_desc_by_name fs.backups) = none →
       (load_deployment_history now fs).2 = []) := by
  refine ⟨?_, ?_, ?_⟩
  · intro now fs h
    unfold load_deployment_history
    rw [h]
    exact ⟨rfl, rfl, rfl, rfl⟩
  · intro now fs st h hp
    unfold load_deployment_history
    rw [h]
    cases hb : fs.backups with
    | nil =>
      rw [hb] at hp
      simp [sort_desc_by_name, first_parsed] at hp
    | cons b rest =>
      rw [hb] at hp
      simp only [List.isEmpty_cons, if_false, Bool.false_eq_true]
      rw [hp]
  · intro now fs h hp
    unfold load_deployment_history
    rw [h]
    cases hb : fs.backups with
    | nil => simp
    | cons b rest =>
      rw [hb] at hp
      simp only [List.isEmpty_cons, if_false, Bool.false_eq_true]
      rw [hp]

/-- Claim C4 witness: the amended statement applied to the concrete
corrupt filesystem. -/
theorem load_quarantines_and_falls_back_witness :
    (load_deployment_history 99 corrupt_fs).2 = [] ∧
    (load_deployment_history 99 corrupt_fs).1.canonical = none ∧
    (load_deployment_history 99 corrupt_fs).1.quarantined =
      corrupt_fs.quarantined ++
        [("deployment_history_corrupt_" ++ toString (99 : Int) ++ ".json",
          FileParse.garbage)] ∧
    (load_deployment_history 99 corrupt_fs).1.backups = corrupt_fs.backups :=
  load_quarantines_and_falls_back.1 99 corrupt_fs rfl

/-- Claim C5 counterexample: five successive appends to an existing
job's log trigger zero snapshot persists — `log_message`
(app.py:166-175) contains no persistence call at all, so there is no
every-5th-append persist cadence. -/
theorem five_appends_no_persist :
    append5.saves = 0 ∧
    (store_lookup append5.store "j1").map Deployment.logs =
      some ["a", "b", "c", "d", "e"] := by
  decide

/-- Claim C5 (amended): `append(job_id, line)` appends the line at the
end of the job's log when the id exists, is a record-creating-free
no-op when the id is unknown, and NEVER triggers a persist of the
store — snapshots are persisted only by the explicit
`save_deployment_history` calls at submission and completion. -/
theorem append_semantics_no_persist :
    (∀ a i m d, store_lookup a.store i = some d →
       store_lookup (log_message a i m).store i =
         some { d with logs := d.logs ++ [m] } ∧
       (∀ j, ¬ i = j → store_lookup (log_message a i m).store j =
          store_lookup a.store j) ∧
       (log_message a i m).saves = a.saves) ∧
    (∀ a i m, store_lookup a.store i = none → log_message a i m = a) := by
  constructor
  · intro a i m d h
    exact ⟨log_message_lookup_self a i m d h,
      fun j hj => log_message_lookup_other a i m j hj,
      log_message_saves a i m⟩
  · intro a i m h
    exact log_message_unknown a i m h

/-- Claim C5 witness: the amended statement applied to a concrete
store with one running job. -/
theorem append_semantics_no_persist_witness :
    store_lookup (log_message running_state "j1" "x").store "j1" =
      some { mk_job "j1" "file" "running" 10 with logs := ["x"] } ∧
    (log_message running_state "j1" "x").saves = 0 := by
  have h := append_semantics_no_persist.1 running_state "j1" "x"
    (mk_job "j1" "file" "running" 10) (by decide)
  exact ⟨h.1, h.2.2⟩

/-- Claim C6 (confirmed): the streaming read yields exactly one
not-found terminal event for an unknown id, and for a job already in a
terminal status it yields every log line in append order from offset 0
followed by the status marker and ends.  The stream is a pure function
of the store and mutates nothing, so any number of concurrent streams
of the same job are independent and each replays from offset 0. -/
theorem stream_notfound_and_terminal_replay :
    (∀ a i, store_lookup a.store i = none →
       get_deployment_logs_stream a i =
         some [SseEvent.notFound "Deployment not found"]) ∧
    (∀ a i d, store_lookup a.store i = some d →
       (d.status = "success" ∨ d.status = "failed") →
       get_deployment_logs_stream a i =
         some (d.logs.map SseEvent.message ++
           [SseEvent.statusMark d.status])) := by
  constructor
  · intro a i h
    unfold get_deployment_logs_stream
    rw [h]
  · intro a i d h ht
    unfold get_deployment_logs_stream
    rw [h]
    rcases ht with h1 | h1 <;> simp [h1]

/-- Claim C6 witness: the stream evaluated over a store with one
finished job, for an unknown id and for the finished job. -/
theorem stream_notfound_and_terminal_replay_witness :
    get_deployment_logs_stream done_state "nope" =
      some [SseEvent.notFound "Deployment not found"] ∧
    get_deployment_logs_stream done_state "j2" =
      some (done_job.logs.map SseEvent.message ++
        [SseEvent.statusMark done_job.status]) := by
  constructor
  · exact stream_notfound_and_terminal_replay.1 done_state "nope" (by decide)
  · exact stream_notfound_and_terminal_replay.2 done_state "j2" done_job
      (by decide) (Or.inl rfl)

/-- Claim C7 (confirmed): serializing the store to the snapshot file
content and parsing it back reproduces the store exactly — job ids in
order, each record's status, log line order and content, vms and all
metadata fields. -/
theorem snapshot_roundtrip (s : Store) :
    decode_store (encode_store s) = some s := by
  unfold encode_store decode_store
  exact decode_fields_roundtrip s

/-- Claim C8 (code_bug evidence).  Fetching the deployment history is
supposed to be read-only, but app.py:850 assigns the formatted string
into each record's timestamp field in place: after one fetch the
stored timestamp of the running job is the string, no longer the
number written at creation, and a second fetch hits `time.localtime`
with that string and raises `TypeError` (modelled by `none`). -/
theorem history_fetch_mutates_timestamp :
    (store_lookup history_after.store "j1").map Deployment.timestamp =
      some (TsVal.str "TS:10") ∧
    TsVal.str "TS:10" ≠ TsVal.num 10 ∧
    get_deployment_history c8_fmt [] history_after = none := by
  decide

/-- Claim C9 (confirmed): every constructed `ThreadManager` is in
synchronous mode with no executor, whatever `max_workers` is passed
(including the module-level instance built with max_workers=1), and a
task submitted through `submit_deployment_task` in that mode runs
inline on the caller: the state returned is the task's post-state, a
normally-returning task yields its task id, and a raising task
re-raises to the caller. -/
theorem thread_manager_always_sync :
    (∀ mw, (ThreadManager.make mw).sync_mode = true ∧
       (ThreadManager.make mw).executor = none) ∧
    (thread_manager.sync_mode = true ∧ thread_manager.executor = none) ∧
    (∀ tm task tid a, tm.sync_mode = true →
       (submit_deployment_task tm task tid a).1 = (task a).1 ∧
       ((task a).2 = none →
         (submit_deployment_task tm task tid a).2 = Except.ok tid) ∧
       (∀ e, (task a).2 = some e →
         (submit_deployment_task tm task tid a).2 = Except.error e)) := by
  refine ⟨fun mw => ⟨rfl, rfl⟩, ⟨rfl, rfl⟩, ?_⟩
  intro tm task tid a h
  unfold submit_deployment_task
  rw [h]
  refine ⟨?_, ?_, ?_⟩
  · cases h2 : (task a).2 <;> simp [h2]
  · intro h2
    simp [h2]
  · intro e h2
    simp [h2]

/-- Claim C9 witness: the statement applied to the module-level
manager and a concrete non-raising task. -/
theorem thread_manager_always_sync_witness :
    (submit_deployment_task thread_manager noop_task "t1" idle_state).1 =
      idle_state ∧
    (submit_deployment_task thread_manager noop_task "t1" idle_state).2 =
      Except.ok "t1" := by
  have h := thread_manager_always_sync.2.2 thread_manager noop_task "t1"
    idle_state rfl
  exact ⟨h.1, h.2.1 rfl⟩

/-- Claim C10 (confirmed): a negative days value is rejected with an
error and the store is untouched; days=0 removes every job and reports
deleted = initial size, remaining = 0; days>0 removes exactly the jobs
with timestamp below now - days*86400 seconds (surviving records are
returned unchanged, removed ids vanish, no ids appear), and the
reported counts are size-before minus size-after and size-after. -/
theorem clear_history_semantics :
    (∀ days now a, days < 0 →
       clear_deployment_history days now a = some (a, ClearResp.badRequest)) ∧
    (∀ now a r, clear_deployment_history 0 now a = some r →
       r.1.store = [] ∧ r.2 = ClearResp.cleared a.store.length 0) ∧
    (∀ days now a r, 0 < days →
       clear_deployment_history days now a = some r →
       (a.store.map Prod.fst).Nodup →
       (∀ i d, store_lookup a.store i = some d →
          ¬ ts_key d < now - days * 86400 →
          store_lookup r.1.store i = some d) ∧
       (∀ i d, store_lookup a.store i = some d →
          ts_key d < now - days * 86400 →
          store_lookup r.1.store i = none) ∧
       (∀ i, store_lookup a.store i = none →
          store_lookup r.1.store i = none) ∧
       r.2 = ClearResp.cleared (a.store.length - r.1.store.length)
         r.1.store.length) := by
  refine ⟨?_, ?_, ?_⟩
  · intro days now a h
    unfold clear_deployment_history
    rw [if_pos h]
  · intro now a r h
    unfold clear_deployment_history at h
    rw [if_neg (by omega : ¬ (0 : Int) < 0), if_pos rfl] at h
    simp only [Option.some.injEq] at h
    subst h
    exact ⟨rfl, rfl⟩
  · intro days now a r hpos h hnd
    unfold clear_deployment_history at h
    rw [if_neg (by omega : ¬ days < 0), if_neg (by omega : ¬ days = 0)] at h
    split at h
    · simp only [Option.some.injEq] at h
      subst h
      refine ⟨?_, ?_, ?_, rfl⟩
      · intro i d hd hge
        exact store_lookup_filter_keep _ a.store i d hd (by simp [hge])
      · intro i d hd hlt
        exact store_lookup_filter_drop _ a.store i d hnd hd (by simp [hlt])
      · intro i hd
        exact store_lookup_filter_none _ a.store i hd
    · cases h

/-- Claim C10 witness: the clear semantics applied to a concrete store
with one job older and one newer than a one-day cutoff, plus the
negative-days rejection at a concrete input. -/
theorem clear_history_semantics_witness :
    store_lookup purge_result.1.store "new" =
      some (mk_job "new" "file" "success" 150000) ∧
    store_lookup purge_result.1.store "old" = none ∧
    purge_result.2 = ClearResp.cleared 1 1 ∧
    clear_deployment_history (-1) 77 purge_state =
      some (purge_state, ClearResp.badRequest) := by
  have h3 := clear_history_semantics.2.2 1 172800 purge_state purge_result
    (by decide) (by decide) (by decide)
  refine ⟨?_, ?_, ?_, ?_⟩
  · exact h3.1 "new" (mk_job "new" "file" "success" 150000)
      (by decide) (by decide)
  · exact h3.2.1 "old" (mk_job "old" "file" "success" 0)
      (by decide) (by decide)
  · exact h3.2.2.2
  · exact clear_history_semantics.1 (-1) 77 purge_state (by decide)

end FixFlow
